import Mathlib

/-!
# Shallow embedding of the SERVER Express application

This file embeds the request handlers of the repository's single server
module (an Express application, here `server`) together with the Mongoose
schemas it declares, and proves properties of the embedded handlers.

Modelling conventions:

* Multipart text fields arrive as `Option String` (`none` = field absent from
  the body); JavaScript truthiness of such a field (`!x`) is false exactly
  when the field is absent or the empty string.
* The document store is modelled as an in-memory list of records; reading and
  writing the store is explicit state passing.
* `jwt.sign(payload, secret, {expiresIn})` is modelled as constructing a
  `SignedToken` descriptor recording the payload, the secret used, and the
  relative expiry in seconds (`'1h'` = 3600).
* The server module never defines the identifiers `Admin` (no
  `mongoose.model` call for the admin schema appears), `bcrypt` (never
  required) and `jwtSecret` (never assigned).  Dereferencing such a binding
  at run time throws a `ReferenceError`, which each admin route's
  `try/catch` maps to the 500 `Server error` response.  The module
  environment `ModuleEnv` makes those three bindings explicit, and
  `serverEnv` is the environment of the module as written (all three absent).
* Errors produced by the multer middleware (file-filter rejection, size
  limit) are passed to Express's `next`; the application installs no
  error-handling middleware, so Express's default error handler answers
  them: status `err.status || err.statusCode || 500`, which is 500 for both
  error kinds (neither carries an HTTP status), with an HTML body rather
  than the route's JSON.  On such an error multer also removes every file it
  already wrote for the request.
-/

namespace Server

/-- An uploaded multipart file part, as multer presents it to the storage
engine and the file filter: the client-supplied original filename, the
declared media type, and the byte size. -/
structure FilePart where
  originalname : String
  mimetype : String
  size : Nat
deriving DecidableEq, Repr

/-- A file written into the flat `uploads` directory; `name` is the on-disk
filename produced by the `multer.diskStorage` `filename` callback:
`Date.now() + '-' + file.originalname`. -/
structure StoredFile where
  name : String
deriving DecidableEq, Repr

/-- `allowedTypes` from the upload `fileFilter`. -/
def allowedTypes : List String := ["video/mp4", "video/mpeg"]

/-- The `fileFilter`: a part is accepted iff its declared mimetype is in
`allowedTypes`; otherwise the filter reports `new Error('Invalid file type')`. -/
def fileFilterAccepts (f : FilePart) : Bool :=
  allowedTypes.contains f.mimetype

/-- `limits: { fileSize: 100 * 1024 * 1024 }` — 100 MiB per file. -/
def fileSizeLimit : Nat := 100 * 1024 * 1024

/-- The two ways the multer middleware can abort a request: a file-filter
rejection (`Invalid file type`) or the `LIMIT_FILE_SIZE` MulterError. -/
inductive UploadError
  | invalidFileType
  | limitFileSize
deriving DecidableEq, Repr

/-- Ingestion of one file part at millisecond timestamp `now`: the file
filter runs first; an accepted part is streamed to disk subject to the
100 MiB limit and stored under the name `{Date.now()}-{originalname}`. -/
def ingestFilePart (now : Nat) (f : FilePart) : Except UploadError StoredFile :=
  if fileFilterAccepts f then
    if f.size > fileSizeLimit then
      .error .limitFileSize
    else
      .ok ⟨toString now ++ "-" ++ f.originalname⟩
  else
    .error .invalidFileType

/-- The `upload.fields([{name:'videoPreview'},{name:'fullVideo'}])`
middleware: each present part is ingested (`t1`, `t2` are the millisecond
timestamps at which the two parts reach the storage engine); the first
error aborts the request, and multer removes any file of the request it
already wrote, so an erroring request retains no stored file. -/
def processFiles (t1 t2 : Nat) (pv fv : Option FilePart) :
    Except UploadError (Option StoredFile × Option StoredFile) :=
  match pv, fv with
  | none, none => .ok (none, none)
  | none, some g => (ingestFilePart t2 g).map fun s => (none, some s)
  | some f, none => (ingestFilePart t1 f).map fun s => (some s, none)
  | some f, some g =>
    match ingestFilePart t1 f with
    | .error e => .error e
    | .ok s1 => (ingestFilePart t2 g).map fun s2 => (some s1, some s2)

/-- A persisted Course document, per the `courseSchema` of the server module
(all five paths `required: true`).  `price` has schema type `Number`; the
model restricts it to integers (see `castNumber`). -/
structure Course where
  courseName : String
  description : String
  price : Int
  videoPreview : String
  fullVideo : String
deriving DecidableEq, Repr

/-- JavaScript falsiness of an optional multipart text field: `!x` holds
exactly when the field is absent (`undefined`) or the empty string. -/
def jsFalsy : Option String → Bool
  | none => true
  | some s => s == ""

/-- Value of a non-empty all-digit character list, read left to right;
`none` as soon as a non-digit appears. -/
def decValAux : List Char → Nat → Option Nat
  | [], acc => some acc
  | c :: rest, acc =>
    if c.isDigit then decValAux rest (acc * 10 + (c.toNat - 48)) else none

/-- Value of a non-empty all-digit character list; `none` for the empty
list or on a non-digit. -/
def decVal : List Char → Option Nat
  | [] => none
  | cs => decValAux cs 0

/-- The numeric cast the store applies to the multipart `price` string
(schema path `price: { type: Number, required: true }`).  Modelled on
integer-literal strings: an optional leading minus sign followed by decimal
digits; any other string fails the cast, making `save` throw, which the
route's catch answers with 500. -/
def castNumber (s : String) : Option Int :=
  match s.toList with
  | '-' :: rest => (decVal rest).map fun n => -(n : Int)
  | cs => (decVal cs).map fun n => (n : Int)

/-- A POST /courses request: the request's own scheme (`req.protocol`) and
Host header (`req.get('host')`), the three multipart text fields, and the
two optional file parts. -/
structure CourseRequest where
  protocol : String
  host : String
  courseName : Option String
  description : Option String
  price : Option String
  videoPreviewFile : Option FilePart
  fullVideoFile : Option FilePart
deriving DecidableEq, Repr

/-- Outcome of one POST /courses request. -/
inductive PublishOutcome
  | multerError (e : UploadError)
  | missingFields
  | castError
  | created (c : Course)
deriving DecidableEq, Repr

/-- The observable result of one POST /courses request: the response
outcome, the course collection afterwards, and the files of this request
still present in the upload directory afterwards. -/
structure PublishResult where
  outcome : PublishOutcome
  store : List Course
  uploadDir : List StoredFile
deriving DecidableEq, Repr

/-- One POST /courses request against course collection `store`.  The multer
middleware runs first and writes accepted files to disk; on a multer error
the request is answered by the default error handler and the written files
are removed.  Otherwise the handler checks
`!courseName || !description || !price || !videoPreview || !fullVideo`
(the five-way match below together with the emptiness test encodes exactly
that truthiness check) and answers 400 without touching the store; with all
five present it builds the course with
`${req.protocol}://${req.get('host')}/uploads/${file.filename}` URLs and
saves it.  The handler never removes files in any branch. -/
def publishCourse (t1 t2 : Nat) (req : CourseRequest) (store : List Course) :
    PublishResult :=
  match processFiles t1 t2 req.videoPreviewFile req.fullVideoFile with
  | .error e => ⟨.multerError e, store, []⟩
  | .ok (pvS?, fvS?) =>
    let written := pvS?.toList ++ fvS?.toList
    match req.courseName, req.description, req.price, pvS?, fvS? with
    | some cn, some d, some pr, some pvS, some fvS =>
      if cn == "" || d == "" || pr == "" then
        ⟨.missingFields, store, written⟩
      else
        match castNumber pr with
        | none => ⟨.castError, store, written⟩
        | some p =>
          let c : Course :=
            { courseName := cn
              description := d
              price := p
              videoPreview := req.protocol ++ "://" ++ req.host ++ "/uploads/" ++ pvS.name
              fullVideo := req.protocol ++ "://" ++ req.host ++ "/uploads/" ++ fvS.name }
          ⟨.created c, store ++ [c], written⟩
    | _, _, _, _, _ => ⟨.missingFields, store, written⟩

/-- HTTP status of a POST /courses outcome.  A multer error is answered by
Express's default error handler: neither error kind carries a status, so the
status is 500. -/
def publishStatus : PublishOutcome → Nat
  | .multerError _ => 500
  | .missingFields => 400
  | .castError => 500
  | .created _ => 201

/-- The JSON `message` of a POST /courses response, when the response is the
route's own JSON at all: a multer error is answered by the default error
handler with an HTML body, not the route's JSON (`none`). -/
def publishMessage : PublishOutcome → Option String
  | .multerError _ => none
  | .missingFields => some "All fields are required."
  | .castError => some "Server error"
  | .created _ => some "Upload successful!"

/-- A file part passes the upload validation: allowed media type and size
within the 100 MiB limit.  (An absent part trivially passes: the middleware
never sees it.) -/
def partOk : Option FilePart → Bool
  | none => true
  | some f => fileFilterAccepts f && decide (f.size ≤ fileSizeLimit)

/-- A hexadecimal digit, as accepted in a MongoDB ObjectId string. -/
def isHexChar (c : Char) : Bool :=
  c.isDigit || ('a' ≤ c && c ≤ 'f') || ('A' ≤ c && c ≤ 'F')

/-- Whether `Course.findById(id)` can cast the route parameter to an
ObjectId: Mongoose accepts a 24-character hexadecimal string (or a
12-character string, read as 12 raw bytes).  Any other string makes
`findById` throw a CastError. -/
def isValidObjectIdString (s : String) : Bool :=
  s.length == 12 || (s.length == 24 && s.toList.all isHexChar)

/-- A Course document together with its store-assigned identifier, as the
course collection holds it for lookup by id. -/
structure StoredCourse where
  id : String
  course : Course
deriving DecidableEq, Repr

/-- Outcome of one GET /courses/:id request. -/
inductive GetCourseOutcome
  | ok (c : Course)
  | notFound
  | serverError
deriving DecidableEq, Repr

/-- GET /courses/:id: `Course.findById(id)` throws a CastError on a
malformed id, which the route's generic catch answers with 500
`Server error`; a well-formed id matching no record answers 404
`Course not found`; otherwise the course is returned with 200. -/
def getCourseById (store : List StoredCourse) (id : String) : GetCourseOutcome :=
  if isValidObjectIdString id then
    match store.find? (fun sc => sc.id == id) with
    | none => .notFound
    | some sc => .ok sc.course
  else
    .serverError

/-- HTTP status of a GET /courses/:id outcome. -/
def getCourseStatus : GetCourseOutcome → Nat
  | .ok _ => 200
  | .notFound => 404
  | .serverError => 500

/-- A persisted User document (`userSchema`): username, unique lowercased
email, and the password stored verbatim. -/
structure UserRec where
  id : String
  username : String
  email : String
  password : String
deriving DecidableEq, Repr

/-- The descriptor of one `jwt.sign(payload, secret, {expiresIn: '1h'})`
call: the payload fields, the signing secret used, and the relative expiry
in seconds from issuance (`'1h'` = 3600). -/
structure SignedToken where
  subjectId : String
  subjectUsername : Option String
  secret : String
  expiresInSeconds : Nat
deriving DecidableEq, Repr

/-- Outcome of one POST /auth/login request. -/
inductive AuthOutcome
  | token (t : SignedToken)
  | invalid
deriving DecidableEq, Repr

/-- POST /auth/login: a single query `User.findOne({email, password})`
requires both fields to match one stored document; any miss — unknown email
or wrong password alike — takes the same branch and answers 400
`Invalid email or password`.  On a match the route signs
`jwt.sign({id: user._id}, 'yourSecretKey', {expiresIn: '1h'})`. -/
def userLogin (store : List UserRec) (email password : String) : AuthOutcome :=
  match store.find? (fun u => u.email == email && u.password == password) with
  | none => .invalid
  | some u => .token ⟨u.id, none, "yourSecretKey", 3600⟩

/-- HTTP status of a POST /auth/login outcome. -/
def authStatus : AuthOutcome → Nat
  | .token _ => 200
  | .invalid => 400

/-- The JSON `message` of a POST /auth/login response (the success response
carries a token instead of a message). -/
def authMessage : AuthOutcome → Option String
  | .token _ => none
  | .invalid => some "Invalid email or password"

/-- A persisted Admin document.  The `adminSchema` declares `username`
(unique) and `password` (the bcrypt hash written by the pre-save hook);
`token` stands for the token field the login handler assigns
(`admin.token = token`) before `admin.save()`. -/
structure AdminRec where
  id : String
  username : String
  password : String
  token : Option SignedToken
deriving DecidableEq, Repr

/-- The module-level bindings the two admin routes dereference.  In the
server module as written, none of the three exists: no
`mongoose.model('Admin', adminSchema)` call appears (so `Admin` is
undefined), `bcrypt` is never required, and `jwtSecret` is never assigned.
Dereferencing an absent binding throws a ReferenceError at run time, which
the surrounding `try/catch` maps to the 500 `Server error` response. -/
structure ModuleEnv where
  adminModelDefined : Bool
  bcryptCompare : Option (String → String → Bool)
  jwtSecret : Option String

/-- The environment of the server module as written: `Admin`, `bcrypt` and
`jwtSecret` are all absent. -/
def serverEnv : ModuleEnv :=
  { adminModelDefined := false, bcryptCompare := none, jwtSecret := none }

/-- Outcome of one POST /admin/login request. -/
inductive AdminPostOutcome
  | token (t : SignedToken)
  | invalidCredentials
  | serverError
deriving DecidableEq, Repr

/-- POST /admin/login: the handler body is
`Admin.findOne({username})` (400 `Invalid credentials` on a miss), then
`admin.comparePassword(password)` — `bcrypt.compare` against the stored
hash — (400 `Invalid credentials` on mismatch), then
`jwt.sign({id, username}, jwtSecret, {expiresIn: '1h'})`, then
`admin.token = token; await admin.save()`, then `res.json({token})`.
Each step that dereferences an absent module binding (`Admin`, `bcrypt`,
`jwtSecret`) throws a ReferenceError, answered 500 by the catch. -/
def adminPostLogin (env : ModuleEnv) (admins : List AdminRec)
    (username password : String) : AdminPostOutcome × List AdminRec :=
  if env.adminModelDefined then
    match admins.find? (fun a => a.username == username) with
    | none => (.invalidCredentials, admins)
    | some admin =>
      match env.bcryptCompare with
      | none => (.serverError, admins)
      | some compare =>
        if compare password admin.password then
          match env.jwtSecret with
          | none => (.serverError, admins)
          | some secret =>
            let t : SignedToken := ⟨admin.id, some admin.username, secret, 3600⟩
            (.token t,
              admins.map fun a => if a.id == admin.id then { a with token := some t } else a)
        else
          (.invalidCredentials, admins)
  else
    (.serverError, admins)

/-- HTTP status of a POST /admin/login outcome. -/
def adminPostStatus : AdminPostOutcome → Nat
  | .token _ => 200
  | .invalidCredentials => 400
  | .serverError => 500

/-- Outcome of one GET /admin/login request. -/
inductive AdminGetOutcome
  | token (t : SignedToken)
  | tokenNotFound
  | serverError
deriving DecidableEq, Repr

/-- GET /admin/login?username=…: the handler body is
`Admin.findOne({username})`; `!admin || !admin.token` answers 400
`Token not found`, otherwise `res.json({token: admin.token})` returns the
stored token verbatim — no signature verification, no expiry check.
Dereferencing the absent `Admin` binding throws a ReferenceError, answered
500 by the catch. -/
def adminGetLogin (env : ModuleEnv) (admins : List AdminRec)
    (username : String) : AdminGetOutcome :=
  if env.adminModelDefined then
    match admins.find? (fun a => a.username == username) with
    | none => .tokenNotFound
    | some admin =>
      match admin.token with
      | none => .tokenNotFound
      | some t => .token t
  else
    .serverError

/-- HTTP status of a GET /admin/login outcome. -/
def adminGetStatus : AdminGetOutcome → Nat
  | .token _ => 200
  | .tokenNotFound => 400
  | .serverError => 500

/-- Where a `jwt.sign` call site takes its signing secret from: a string
literal in the call, or a module-level binding together with its value in
the module environment (`none` = the binding is undefined). -/
inductive SecretSource
  | literalKey (s : String)
  | moduleBinding (name : String) (value : Option String)
deriving DecidableEq, Repr

/-- The user login sign site:
`jwt.sign({id: user._id}, 'yourSecretKey', {expiresIn: '1h'})`. -/
def userLoginSecretSource : SecretSource := .literalKey "yourSecretKey"

/-- The admin login sign site:
`jwt.sign({id, username}, jwtSecret, {expiresIn: '1h'})`, where `jwtSecret`
is a module binding that the server module never defines. -/
def adminLoginSecretSource : SecretSource :=
  .moduleBinding "jwtSecret" serverEnv.jwtSecret

/-! ## Helper lemmas -/

/-- A part that passes the filter and the size limit is stored under
`{timestamp}-{originalname}`. -/
theorem ingestFilePart_ok (t : Nat) (f : FilePart)
    (h1 : fileFilterAccepts f = true) (h2 : f.size ≤ fileSizeLimit) :
    ingestFilePart t f = .ok ⟨toString t ++ "-" ++ f.originalname⟩ := by
  simp [ingestFilePart, h1, Nat.not_lt.mpr h2]

/-- A successfully stored part carries the `{timestamp}-{originalname}`
storage name. -/
theorem ingestFilePart_ok_name {t : Nat} {f : FilePart} {s : StoredFile}
    (h : ingestFilePart t f = .ok s) :
    s = ⟨toString t ++ "-" ++ f.originalname⟩ := by
  unfold ingestFilePart at h
  split at h
  · split at h
    · exact absurd h (by simp)
    · exact (Except.ok.injEq .. ▸ h).symm ▸ rfl
  · exact absurd h (by simp)

/-- When both parts (where present) pass validation, the middleware succeeds
and stores each present part under its timestamped name. -/
theorem processFiles_ok (t1 t2 : Nat) (pv fv : Option FilePart)
    (h1 : partOk pv = true) (h2 : partOk fv = true) :
    processFiles t1 t2 pv fv =
      .ok (pv.map fun f => ⟨toString t1 ++ "-" ++ f.originalname⟩,
        fv.map fun f => ⟨toString t2 ++ "-" ++ f.originalname⟩) := by
  cases pv with
  | none =>
    cases fv with
    | none => rfl
    | some g =>
      simp only [partOk, Bool.and_eq_true, decide_eq_true_eq] at h2
      simp [processFiles, Except.map, ingestFilePart_ok _ _ h2.1 h2.2]
  | some f =>
    simp only [partOk, Bool.and_eq_true, decide_eq_true_eq] at h1
    cases fv with
    | none => simp [processFiles, Except.map, ingestFilePart_ok _ _ h1.1 h1.2]
    | some g =>
      simp only [partOk, Bool.and_eq_true, decide_eq_true_eq] at h2
      simp [processFiles, Except.map, ingestFilePart_ok _ _ h1.1 h1.2,
        ingestFilePart_ok _ _ h2.1 h2.2]

/-- With no `videoPreview` part, the middleware stores no `videoPreview`
file. -/
theorem processFiles_fst_none {t1 t2 : Nat} {fv : Option FilePart}
    {a b : Option StoredFile}
    (h : processFiles t1 t2 none fv = .ok (a, b)) : a = none := by
  cases fv with
  | none => simp [processFiles] at h; exact h.1.symm
  | some g =>
    simp only [processFiles] at h
    cases hi : ingestFilePart t2 g <;> simp [hi, Except.map] at h
    exact h.1.symm

/-- With no `fullVideo` part, the middleware stores no `fullVideo` file. -/
theorem processFiles_snd_none {t1 t2 : Nat} {pv : Option FilePart}
    {a b : Option StoredFile}
    (h : processFiles t1 t2 pv none = .ok (a, b)) : b = none := by
  cases pv with
  | none => simp [processFiles] at h; exact h.2.symm
  | some f =>
    simp only [processFiles] at h
    cases hi : ingestFilePart t1 f <;> simp [hi, Except.map] at h
    exact h.2.symm

/-- With the module environment as written, POST /admin/login answers
`serverError` and leaves the admin collection unchanged, for every request:
the handler's first statement dereferences the undefined `Admin` binding. -/
theorem adminPostLogin_serverEnv (admins : List AdminRec) (u p : String) :
    adminPostLogin serverEnv admins u p = (.serverError, admins) := by
  simp [adminPostLogin, serverEnv]

/-- With the module environment as written, GET /admin/login answers
`serverError` for every request. -/
theorem adminGetLogin_serverEnv (admins : List AdminRec) (u : String) :
    adminGetLogin serverEnv admins u = .serverError := by
  simp [adminGetLogin, serverEnv]

/-- A part with a disallowed media type or an over-limit size fails
ingestion. -/
theorem ingestFilePart_error (t : Nat) (f : FilePart)
    (h : fileFilterAccepts f = false ∨ fileSizeLimit < f.size) :
    ∃ e, ingestFilePart t f = .error e := by
  rcases h with h | h
  · exact ⟨.invalidFileType, by simp [ingestFilePart, h]⟩
  · cases hacc : fileFilterAccepts f
    · exact ⟨.invalidFileType, by simp [ingestFilePart, hacc]⟩
    · exact ⟨.limitFileSize, by simp [ingestFilePart, hacc, h]⟩

/-- If either included part has a disallowed media type or an over-limit
size, the middleware aborts the request with an error. -/
theorem processFiles_error_of_bad (t1 t2 : Nat) (pvf? fvf? : Option FilePart)
    (hbad :
      (∃ f, pvf? = some f ∧ (fileFilterAccepts f = false ∨ fileSizeLimit < f.size)) ∨
      (∃ f, fvf? = some f ∧ (fileFilterAccepts f = false ∨ fileSizeLimit < f.size))) :
    ∃ e, processFiles t1 t2 pvf? fvf? = .error e := by
  rcases hbad with ⟨f, hf, hb⟩ | ⟨g, hg, hb⟩
  · subst hf
    obtain ⟨e, he⟩ := ingestFilePart_error t1 f hb
    cases fvf? with
    | none => exact ⟨e, by simp [processFiles, he, Except.map]⟩
    | some g => exact ⟨e, by simp [processFiles, he]⟩
  · subst hg
    cases pvf? with
    | none =>
      obtain ⟨e, he⟩ := ingestFilePart_error t2 g hb
      exact ⟨e, by simp [processFiles, he, Except.map]⟩
    | some f =>
      cases h1 : ingestFilePart t1 f with
      | error e => exact ⟨e, by simp [processFiles, h1]⟩
      | ok s1 =>
        obtain ⟨e, he⟩ := ingestFilePart_error t2 g hb
        exact ⟨e, by simp [processFiles, h1, he, Except.map]⟩

/-- A falsy optional field is either absent or the empty string. -/
theorem jsFalsy_shape (o : Option String) (h : jsFalsy o = true) :
    o = none ∨ o = some "" := by
  cases o with
  | none => exact Or.inl rfl
  | some s =>
    right
    simp only [jsFalsy, beq_iff_eq] at h
    rw [h]

/-! ## Claim theorems -/

/-- C1 (code bug): the claim says POST /admin/login with a matching
username/secret answers 200 with a signed one-hour token, overwrites the
Admin's stored token, and makes it retrievable via GET /admin/login.  In
the module as written, every POST /admin/login request — matching
credentials included — answers 500 `Server error` and leaves the admin
collection unchanged: the handler dereferences the undefined module
bindings `Admin`, `bcrypt` and `jwtSecret`, and the resulting
ReferenceError is caught and mapped to 500. -/
theorem adminLogin_always_500 (admins : List AdminRec) (u p : String) :
    adminPostLogin serverEnv admins u p = (.serverError, admins) ∧
    adminPostStatus (adminPostLogin serverEnv admins u p).1 = 500 := by
  refine ⟨adminPostLogin_serverEnv admins u p, ?_⟩
  rw [adminPostLogin_serverEnv]
  rfl

/-- C10 (code bug): the claim says GET /admin/login?username=u returns the
stored token verbatim with 200 whenever the Admin exists with a non-empty
token field, without verifying signature or expiry.  In the module as
written, every GET /admin/login request answers 500 `Server error`: the
handler dereferences the undefined `Admin` binding, and the resulting
ReferenceError is caught and mapped to 500; the verbatim-return branch is
unreachable. -/
theorem adminTokenLookup_always_500 (admins : List AdminRec) (u : String) :
    adminGetLogin serverEnv admins u = .serverError ∧
    adminGetStatus (adminGetLogin serverEnv admins u) = 500 := by
  refine ⟨adminGetLogin_serverEnv admins u, ?_⟩
  rw [adminGetLogin_serverEnv]
  rfl

/-- C5 counterexample: the claim says both login routes sign with the same
single process-wide secret.  The two `jwt.sign` call sites draw their
secrets from different sources: the user site uses the string literal
`'yourSecretKey'`, the admin site references the module binding `jwtSecret`,
which the module never defines. -/
theorem signSecret_not_shared :
    (userLoginSecretSource == adminLoginSecretSource) = false := by
  decide

/-- C5 (amended): every token the module actually issues comes from user
login and is signed with the literal `'yourSecretKey'` with expiry 3600
seconds from issuance; the admin sign site instead references the undefined
module binding `jwtSecret` — a different secret source — and with the
module's own environment admin login issues no token at all (it answers
`serverError`). -/
theorem tokenSigning_per_site (store : List UserRec) (e p : String)
    (t : SignedToken) (admins : List AdminRec) (u pw : String)
    (h : userLogin store e p = .token t) :
    t.secret = "yourSecretKey" ∧ t.expiresInSeconds = 3600 ∧
    userLoginSecretSource = SecretSource.literalKey "yourSecretKey" ∧
    adminLoginSecretSource = SecretSource.moduleBinding "jwtSecret" none ∧
    userLoginSecretSource ≠ adminLoginSecretSource ∧
    (adminPostLogin serverEnv admins u pw).1 = AdminPostOutcome.serverError := by
  have hts : t.secret = "yourSecretKey" ∧ t.expiresInSeconds = 3600 := by
    unfold userLogin at h
    cases hf : store.find? (fun v => v.email == e && v.password == p) with
    | none => rw [hf] at h; exact absurd h (by simp)
    | some v =>
      rw [hf] at h
      simp only [AuthOutcome.token.injEq] at h
      subst h
      exact ⟨rfl, rfl⟩
  refine ⟨hts.1, hts.2, rfl, rfl, by decide, ?_⟩
  rw [adminPostLogin_serverEnv]

/-- C5 witness: the amended statement at a concrete store and request. -/
theorem tokenSigning_per_site_witness :
    SignedToken.secret ⟨"u1", none, "yourSecretKey", 3600⟩ = "yourSecretKey" ∧
    SignedToken.expiresInSeconds ⟨"u1", none, "yourSecretKey", 3600⟩ = 3600 ∧
    userLoginSecretSource = SecretSource.literalKey "yourSecretKey" ∧
    adminLoginSecretSource = SecretSource.moduleBinding "jwtSecret" none ∧
    userLoginSecretSource ≠ adminLoginSecretSource ∧
    (adminPostLogin serverEnv [] "root" "pw").1 = AdminPostOutcome.serverError :=
  tokenSigning_per_site [⟨"u1", "bob", "bob@example.com", "hunter2"⟩]
    "bob@example.com" "hunter2" ⟨"u1", none, "yourSecretKey", 3600⟩
    [] "root" "pw" rfl

/-- C6 counterexample: the claim says a malformed id fails with a 400-class
client error, not a 500 server error.  The malformed id `"xyz"` (neither 12
characters nor 24 hex characters) makes `findById` throw a CastError, which
the route's generic catch answers with 500 `Server error`. -/
theorem getCourseById_malformed_500 :
    getCourseById [] "xyz" = GetCourseOutcome.serverError ∧
    getCourseStatus (getCourseById [] "xyz") = 500 := by
  constructor <;> rfl

/-- C6 (amended): a well-formed id matching no stored Course answers 404
`Course not found`; a malformed id answers 500 `Server error` (the
CastError is caught by the generic handler), not a 400-class error. -/
theorem getCourseById_behavior (store : List StoredCourse) (id : String)
    (hmiss : ∀ sc ∈ store, sc.id ≠ id) :
    (isValidObjectIdString id = true →
      getCourseById store id = GetCourseOutcome.notFound ∧
      getCourseStatus (getCourseById store id) = 404) ∧
    (isValidObjectIdString id = false →
      getCourseById store id = GetCourseOutcome.serverError ∧
      getCourseStatus (getCourseById store id) = 500) := by
  have hf : store.find? (fun sc => sc.id == id) = none := by
    rw [List.find?_eq_none]
    intro sc hsc
    simp only [beq_iff_eq]
    exact hmiss sc hsc
  constructor
  · intro hv
    constructor
    · simp [getCourseById, hv, hf]
    · simp [getCourseById, hv, hf, getCourseStatus]
  · intro hv
    constructor
    · simp [getCourseById, hv]
    · simp [getCourseById, hv, getCourseStatus]

/-- C6 witness: the amended statement at a store holding one course and a
well-formed id that matches nothing. -/
theorem getCourseById_behavior_witness :
    (isValidObjectIdString "bbbbbbbbbbbbbbbbbbbbbbbb" = true →
      getCourseById [⟨"aaaaaaaaaaaaaaaaaaaaaaaa", ⟨"n", "d", 1, "u", "v"⟩⟩]
          "bbbbbbbbbbbbbbbbbbbbbbbb" = GetCourseOutcome.notFound ∧
      getCourseStatus (getCourseById [⟨"aaaaaaaaaaaaaaaaaaaaaaaa", ⟨"n", "d", 1, "u", "v"⟩⟩]
          "bbbbbbbbbbbbbbbbbbbbbbbb") = 404) ∧
    (isValidObjectIdString "bbbbbbbbbbbbbbbbbbbbbbbb" = false →
      getCourseById [⟨"aaaaaaaaaaaaaaaaaaaaaaaa", ⟨"n", "d", 1, "u", "v"⟩⟩]
          "bbbbbbbbbbbbbbbbbbbbbbbb" = GetCourseOutcome.serverError ∧
      getCourseStatus (getCourseById [⟨"aaaaaaaaaaaaaaaaaaaaaaaa", ⟨"n", "d", 1, "u", "v"⟩⟩]
          "bbbbbbbbbbbbbbbbbbbbbbbb") = 500) :=
  getCourseById_behavior [⟨"aaaaaaaaaaaaaaaaaaaaaaaa", ⟨"n", "d", 1, "u", "v"⟩⟩]
    "bbbbbbbbbbbbbbbbbbbbbbbb" (by decide)

/-- C4: two failing POST /auth/login attempts — one whose email matches no
stored User, one whose email matches a User but with a password different
from the stored one — produce identical observable responses: the same
outcome, status 400, and the undifferentiated message
`Invalid email or password`.  Both fail the single conjunctive query
`User.findOne({email, password})`, so nothing distinguishes which half
failed. -/
theorem authLogin_no_enumeration (store : List UserRec) (e1 p1 e2 p2 : String)
    (h1 : ∀ u ∈ store, u.email ≠ e1)
    (h2 : ∀ u ∈ store, u.email = e2 → u.password ≠ p2) :
    userLogin store e1 p1 = userLogin store e2 p2 ∧
    userLogin store e1 p1 = AuthOutcome.invalid ∧
    authStatus (userLogin store e1 p1) = 400 ∧
    authMessage (userLogin store e1 p1) = some "Invalid email or password" := by
  have f1 : store.find? (fun u => u.email == e1 && u.password == p1) = none := by
    rw [List.find?_eq_none]
    intro u hu
    simp only [Bool.and_eq_true, beq_iff_eq, not_and]
    intro he
    exact absurd he (h1 u hu)
  have f2 : store.find? (fun u => u.email == e2 && u.password == p2) = none := by
    rw [List.find?_eq_none]
    intro u hu
    simp only [Bool.and_eq_true, beq_iff_eq, not_and]
    exact h2 u hu
  refine ⟨?_, ?_, ?_, ?_⟩ <;> simp [userLogin, f1, f2, authStatus, authMessage]

/-- C4 witness: a store with one user; an unknown-email attempt and a
wrong-password attempt for the known email answer identically. -/
theorem authLogin_no_enumeration_witness :
    userLogin [⟨"1", "bob", "bob@x.com", "pw"⟩] "alice@x.com" "guess"
      = userLogin [⟨"1", "bob", "bob@x.com", "pw"⟩] "bob@x.com" "wrong" ∧
    userLogin [⟨"1", "bob", "bob@x.com", "pw"⟩] "alice@x.com" "guess"
      = AuthOutcome.invalid ∧
    authStatus (userLogin [⟨"1", "bob", "bob@x.com", "pw"⟩] "alice@x.com" "guess") = 400 ∧
    authMessage (userLogin [⟨"1", "bob", "bob@x.com", "pw"⟩] "alice@x.com" "guess")
      = some "Invalid email or password" :=
  authLogin_no_enumeration [⟨"1", "bob", "bob@x.com", "pw"⟩]
    "alice@x.com" "guess" "bob@x.com" "wrong" (by decide) (by decide)

/-- C2 counterexample: a request missing `courseName` but carrying a
`videoPreview` part of disallowed type is NOT answered with the 400
missing-fields JSON error: the multer middleware aborts first, and the
default error handler answers 500 with a non-JSON body. -/
theorem publish_missing_field_not_always_400 :
    (publishCourse 1 2 ⟨"http", "h", none, some "d", some "9",
        some ⟨"a.txt", "text/plain", 10⟩, some ⟨"b.mp4", "video/mp4", 10⟩⟩ []).outcome
      = PublishOutcome.multerError UploadError.invalidFileType ∧
    publishStatus (publishCourse 1 2 ⟨"http", "h", none, some "d", some "9",
        some ⟨"a.txt", "text/plain", 10⟩, some ⟨"b.mp4", "video/mp4", 10⟩⟩ []).outcome = 500 ∧
    publishMessage (publishCourse 1 2 ⟨"http", "h", none, some "d", some "9",
        some ⟨"a.txt", "text/plain", 10⟩, some ⟨"b.mp4", "video/mp4", 10⟩⟩ []).outcome = none := by
  refine ⟨?_, ?_, ?_⟩ <;> rfl

/-- C2 (amended): for every publish request in which one of the five
required inputs is absent, no Course is persisted; and provided every
included file part passes the upload validation (so the middleware does not
abort first), the response is the 400 missing-fields error
`All fields are required.`. -/
theorem publish_missing_input (t1 t2 : Nat) (proto host : String)
    (cn? d? pr? : Option String) (pvf? fvf? : Option FilePart)
    (store : List Course)
    (habs : cn? = none ∨ d? = none ∨ pr? = none ∨ pvf? = none ∨ fvf? = none) :
    (publishCourse t1 t2 ⟨proto, host, cn?, d?, pr?, pvf?, fvf?⟩ store).store = store ∧
    (partOk pvf? = true → partOk fvf? = true →
      (publishCourse t1 t2 ⟨proto, host, cn?, d?, pr?, pvf?, fvf?⟩ store).outcome
        = PublishOutcome.missingFields ∧
      publishStatus
        (publishCourse t1 t2 ⟨proto, host, cn?, d?, pr?, pvf?, fvf?⟩ store).outcome = 400 ∧
      publishMessage
        (publishCourse t1 t2 ⟨proto, host, cn?, d?, pr?, pvf?, fvf?⟩ store).outcome
        = some "All fields are required.") := by
  cases hpf : processFiles t1 t2 pvf? fvf? with
  | error e =>
    refine ⟨by simp [publishCourse, hpf], ?_⟩
    intro hp1 hp2
    rw [processFiles_ok t1 t2 pvf? fvf? hp1 hp2] at hpf
    exact absurd hpf (by simp)
  | ok pair =>
    obtain ⟨a, b⟩ := pair
    rcases habs with h | h | h | h | h
    · subst h
      cases d? <;> cases pr? <;> cases a <;> cases b <;>
        exact ⟨by simp [publishCourse, hpf], fun _ _ =>
          by refine ⟨?_, ?_, ?_⟩ <;> simp [publishCourse, hpf, publishStatus, publishMessage]⟩
    · subst h
      cases cn? <;> cases pr? <;> cases a <;> cases b <;>
        exact ⟨by simp [publishCourse, hpf], fun _ _ =>
          by refine ⟨?_, ?_, ?_⟩ <;> simp [publishCourse, hpf, publishStatus, publishMessage]⟩
    · subst h
      cases cn? <;> cases d? <;> cases a <;> cases b <;>
        exact ⟨by simp [publishCourse, hpf], fun _ _ =>
          by refine ⟨?_, ?_, ?_⟩ <;> simp [publishCourse, hpf, publishStatus, publishMessage]⟩
    · subst h
      have ha := processFiles_fst_none hpf
      subst ha
      cases cn? <;> cases d? <;> cases pr? <;> cases b <;>
        exact ⟨by simp [publishCourse, hpf], fun _ _ =>
          by refine ⟨?_, ?_, ?_⟩ <;> simp [publishCourse, hpf, publishStatus, publishMessage]⟩
    · subst h
      have hb := processFiles_snd_none hpf
      subst hb
      cases cn? <;> cases d? <;> cases pr? <;> cases a <;>
        exact ⟨by simp [publishCourse, hpf], fun _ _ =>
          by refine ⟨?_, ?_, ?_⟩ <;> simp [publishCourse, hpf, publishStatus, publishMessage]⟩

/-- C2 witness: the amended statement at a concrete request missing only
the `fullVideo` file, with a valid `videoPreview` part. -/
theorem publish_missing_input_witness :
    (publishCourse 1 2 ⟨"http", "h", some "Intro", some "Basics", some "9",
        some ⟨"a.mp4", "video/mp4", 10⟩, none⟩ []).store = [] ∧
    (partOk (some ⟨"a.mp4", "video/mp4", 10⟩) = true →
      partOk (none : Option FilePart) = true →
      (publishCourse 1 2 ⟨"http", "h", some "Intro", some "Basics", some "9",
          some ⟨"a.mp4", "video/mp4", 10⟩, none⟩ []).outcome
        = PublishOutcome.missingFields ∧
      publishStatus (publishCourse 1 2 ⟨"http", "h", some "Intro", some "Basics", some "9",
          some ⟨"a.mp4", "video/mp4", 10⟩, none⟩ []).outcome = 400 ∧
      publishMessage (publishCourse 1 2 ⟨"http", "h", some "Intro", some "Basics", some "9",
          some ⟨"a.mp4", "video/mp4", 10⟩, none⟩ []).outcome
        = some "All fields are required.") :=
  publish_missing_input 1 2 "http" "h" (some "Intro") (some "Basics") (some "9")
    (some ⟨"a.mp4", "video/mp4", 10⟩) none []
    (Or.inr (Or.inr (Or.inr (Or.inr rfl))))

/-- C3 counterexample: a complete request whose `fullVideo` part has a
disallowed media type is rejected — but not "with a 400 JSON error at the
request boundary" as claimed: the default error handler answers 500 with a
non-JSON body.  (No file of the request remains in the upload directory.) -/
theorem publish_bad_part_not_400 :
    publishStatus (publishCourse 3 4 ⟨"http", "site", some "Intro", some "Basics", some "12",
        some ⟨"p.mp4", "video/mp4", 10⟩, some ⟨"f.txt", "text/plain", 10⟩⟩ []).outcome = 500 ∧
    publishMessage (publishCourse 3 4 ⟨"http", "site", some "Intro", some "Basics", some "12",
        some ⟨"p.mp4", "video/mp4", 10⟩, some ⟨"f.txt", "text/plain", 10⟩⟩ []).outcome = none ∧
    (publishCourse 3 4 ⟨"http", "site", some "Intro", some "Basics", some "12",
        some ⟨"p.mp4", "video/mp4", 10⟩, some ⟨"f.txt", "text/plain", 10⟩⟩ []).uploadDir = [] := by
  refine ⟨?_, ?_, ?_⟩ <;> rfl

/-- C3 (amended): whenever an included file part has a media type outside
`{video/mp4, video/mpeg}` or a size over 100 MiB, ingestion fails, no file
of the request remains in the upload directory, the course store is
unchanged — and the request is answered 500 by the framework's default
error handler (a non-JSON body), not with a 400 JSON error. -/
theorem publish_bad_part_rejected (t1 t2 : Nat) (proto host : String)
    (cn? d? pr? : Option String) (pvf? fvf? : Option FilePart) (store : List Course)
    (hbad :
      (∃ f, pvf? = some f ∧ (fileFilterAccepts f = false ∨ fileSizeLimit < f.size)) ∨
      (∃ f, fvf? = some f ∧ (fileFilterAccepts f = false ∨ fileSizeLimit < f.size))) :
    (∃ e, (publishCourse t1 t2 ⟨proto, host, cn?, d?, pr?, pvf?, fvf?⟩ store).outcome
      = PublishOutcome.multerError e) ∧
    (publishCourse t1 t2 ⟨proto, host, cn?, d?, pr?, pvf?, fvf?⟩ store).uploadDir = [] ∧
    (publishCourse t1 t2 ⟨proto, host, cn?, d?, pr?, pvf?, fvf?⟩ store).store = store ∧
    publishStatus
      (publishCourse t1 t2 ⟨proto, host, cn?, d?, pr?, pvf?, fvf?⟩ store).outcome = 500 ∧
    publishMessage
      (publishCourse t1 t2 ⟨proto, host, cn?, d?, pr?, pvf?, fvf?⟩ store).outcome = none := by
  obtain ⟨e, he⟩ := processFiles_error_of_bad t1 t2 pvf? fvf? hbad
  exact ⟨⟨e, by simp [publishCourse, he]⟩,
    by simp [publishCourse, he],
    by simp [publishCourse, he],
    by simp [publishCourse, he, publishStatus],
    by simp [publishCourse, he, publishMessage]⟩

/-- C3 witness: the amended statement at a request whose `videoPreview`
part is one byte over the 100 MiB limit. -/
theorem publish_bad_part_rejected_witness :
    (∃ e, (publishCourse 5 6 ⟨"https", "cdn", some "Big", some "Large", some "1",
        some ⟨"big.mp4", "video/mp4", 104857601⟩, some ⟨"ok.mp4", "video/mp4", 10⟩⟩ []).outcome
      = PublishOutcome.multerError e) ∧
    (publishCourse 5 6 ⟨"https", "cdn", some "Big", some "Large", some "1",
        some ⟨"big.mp4", "video/mp4", 104857601⟩, some ⟨"ok.mp4", "video/mp4", 10⟩⟩ []).uploadDir
      = [] ∧
    (publishCourse 5 6 ⟨"https", "cdn", some "Big", some "Large", some "1",
        some ⟨"big.mp4", "video/mp4", 104857601⟩, some ⟨"ok.mp4", "video/mp4", 10⟩⟩ []).store
      = [] ∧
    publishStatus (publishCourse 5 6 ⟨"https", "cdn", some "Big", some "Large", some "1",
        some ⟨"big.mp4", "video/mp4", 104857601⟩, some ⟨"ok.mp4", "video/mp4", 10⟩⟩ []).outcome
      = 500 ∧
    publishMessage (publishCourse 5 6 ⟨"https", "cdn", some "Big", some "Large", some "1",
        some ⟨"big.mp4", "video/mp4", 104857601⟩, some ⟨"ok.mp4", "video/mp4", 10⟩⟩ []).outcome
      = none :=
  publish_bad_part_rejected 5 6 "https" "cdn" (some "Big") (some "Large") (some "1")
    (some ⟨"big.mp4", "video/mp4", 104857601⟩) (some ⟨"ok.mp4", "video/mp4", 10⟩) []
    (Or.inl ⟨⟨"big.mp4", "video/mp4", 104857601⟩, rfl, Or.inr (by decide)⟩)

/-- C7: for every successfully published course, both file parts were
present, each was stored under `{millisecond timestamp}-{original
filename}`, and each recorded media URL is
`{protocol}://{host}/uploads/{storageName}` built from the publishing
request's own scheme and Host header; the created course is appended to the
store. -/
theorem publish_success_urls (t1 t2 : Nat) (proto host : String)
    (cn? d? pr? : Option String) (pvf? fvf? : Option FilePart)
    (store : List Course) (c : Course)
    (h : (publishCourse t1 t2 ⟨proto, host, cn?, d?, pr?, pvf?, fvf?⟩ store).outcome
      = PublishOutcome.created c) :
    ∃ pv fv, pvf? = some pv ∧ fvf? = some fv ∧
      c.videoPreview
        = proto ++ "://" ++ host ++ "/uploads/" ++ (toString t1 ++ "-" ++ pv.originalname) ∧
      c.fullVideo
        = proto ++ "://" ++ host ++ "/uploads/" ++ (toString t2 ++ "-" ++ fv.originalname) ∧
      (publishCourse t1 t2 ⟨proto, host, cn?, d?, pr?, pvf?, fvf?⟩ store).uploadDir
        = [⟨toString t1 ++ "-" ++ pv.originalname⟩, ⟨toString t2 ++ "-" ++ fv.originalname⟩] ∧
      (publishCourse t1 t2 ⟨proto, host, cn?, d?, pr?, pvf?, fvf?⟩ store).store
        = store ++ [c] := by
  cases pvf? with
  | none =>
    exfalso
    cases fvf? with
    | none =>
      cases cn? <;> cases d? <;> cases pr? <;>
        simp [publishCourse, processFiles] at h
    | some g =>
      cases h2 : ingestFilePart t2 g with
      | error e =>
        simp [publishCourse, processFiles, h2, Except.map] at h
      | ok s =>
        cases cn? <;> cases d? <;> cases pr? <;>
          simp [publishCourse, processFiles, h2, Except.map] at h
  | some pv =>
    cases fvf? with
    | none =>
      exfalso
      cases h1 : ingestFilePart t1 pv with
      | error e => simp [publishCourse, processFiles, h1, Except.map] at h
      | ok s =>
        cases cn? <;> cases d? <;> cases pr? <;>
          simp [publishCourse, processFiles, h1, Except.map] at h
    | some fv =>
      cases h1 : ingestFilePart t1 pv with
      | error e =>
        exfalso
        simp [publishCourse, processFiles, h1, Except.map] at h
      | ok s1 =>
        cases h2 : ingestFilePart t2 fv with
        | error e =>
          exfalso
          simp [publishCourse, processFiles, h1, h2, Except.map] at h
        | ok s2 =>
          obtain rfl := ingestFilePart_ok_name h1
          obtain rfl := ingestFilePart_ok_name h2
          cases cn? with
          | none =>
            exfalso
            cases d? <;> cases pr? <;>
              simp [publishCourse, processFiles, h1, h2, Except.map] at h
          | some cn =>
            cases d? with
            | none =>
              exfalso
              cases pr? <;>
                simp [publishCourse, processFiles, h1, h2, Except.map] at h
            | some d =>
              cases pr? with
              | none =>
                exfalso
                simp [publishCourse, processFiles, h1, h2, Except.map] at h
              | some pr =>
                cases hif : (cn == "" || d == "" || pr == "") with
                | true =>
                  exfalso
                  simp [publishCourse, processFiles, h1, h2, Except.map, hif] at h
                | false =>
                  cases hcast : castNumber pr with
                  | none =>
                    exfalso
                    simp [publishCourse, processFiles, h1, h2, Except.map, hif, hcast] at h
                  | some p =>
                    have hc :
                        c = ⟨cn, d, p,
                          proto ++ "://" ++ host ++ "/uploads/"
                            ++ (toString t1 ++ "-" ++ pv.originalname),
                          proto ++ "://" ++ host ++ "/uploads/"
                            ++ (toString t2 ++ "-" ++ fv.originalname)⟩ := by
                      simp [publishCourse, processFiles, h1, h2, Except.map, hif, hcast] at h
                      exact h.symm
                    subst hc
                    refine ⟨pv, fv, rfl, rfl, rfl, rfl, ?_, ?_⟩
                    · simp [publishCourse, processFiles, h1, h2, Except.map, hif, hcast]
                    · simp [publishCourse, processFiles, h1, h2, Except.map, hif, hcast]

/-- C7 witness: a concrete successful publish, with the storage names and
URLs spelled out. -/
theorem publish_success_urls_witness :
    ∃ pv fv, some (FilePart.mk "sample.mp4" "video/mp4" 1024) = some pv ∧
      some (FilePart.mk "sample2.mp4" "video/mp4" 2048) = some fv ∧
      Course.videoPreview ⟨"Intro", "Basics", 9,
          "http://host/uploads/100-sample.mp4", "http://host/uploads/101-sample2.mp4"⟩
        = "http" ++ "://" ++ "host" ++ "/uploads/" ++ (toString 100 ++ "-" ++ pv.originalname) ∧
      Course.fullVideo ⟨"Intro", "Basics", 9,
          "http://host/uploads/100-sample.mp4", "http://host/uploads/101-sample2.mp4"⟩
        = "http" ++ "://" ++ "host" ++ "/uploads/" ++ (toString 101 ++ "-" ++ fv.originalname) ∧
      (publishCourse 100 101 ⟨"http", "host", some "Intro", some "Basics", some "9",
          some ⟨"sample.mp4", "video/mp4", 1024⟩, some ⟨"sample2.mp4", "video/mp4", 2048⟩⟩
          []).uploadDir
        = [⟨toString 100 ++ "-" ++ pv.originalname⟩, ⟨toString 101 ++ "-" ++ fv.originalname⟩] ∧
      (publishCourse 100 101 ⟨"http", "host", some "Intro", some "Basics", some "9",
          some ⟨"sample.mp4", "video/mp4", 1024⟩, some ⟨"sample2.mp4", "video/mp4", 2048⟩⟩
          []).store
        = [] ++ [⟨"Intro", "Basics", 9,
            "http://host/uploads/100-sample.mp4", "http://host/uploads/101-sample2.mp4"⟩] :=
  publish_success_urls 100 101 "http" "host" (some "Intro") (some "Basics") (some "9")
    (some ⟨"sample.mp4", "video/mp4", 1024⟩) (some ⟨"sample2.mp4", "video/mp4", 2048⟩) []
    ⟨"Intro", "Basics", 9,
      "http://host/uploads/100-sample.mp4", "http://host/uploads/101-sample2.mp4"⟩
    (by decide)

/-- C8 counterexample: a publish request with price `"-5"` (all other
inputs valid) is accepted with 201 and persists a Course whose price is the
negative number -5 — the handler's `!price` check only rejects a falsy
price and the schema imposes no lower bound. -/
theorem publish_negative_price_persisted :
    ((publishCourse 3 4 ⟨"http", "h", some "n", some "d", some "-5",
        some ⟨"a.mp4", "video/mp4", 10⟩, some ⟨"b.mp4", "video/mp4", 20⟩⟩ []).store.map
      Course.price) = [-5] ∧
    publishStatus (publishCourse 3 4 ⟨"http", "h", some "n", some "d", some "-5",
        some ⟨"a.mp4", "video/mp4", 10⟩, some ⟨"b.mp4", "video/mp4", 20⟩⟩ []).outcome
      = 201 := by
  refine ⟨?_, ?_⟩ <;> rfl

/-- C8 (amended): the publish operation applies no sign check to the price:
with all five inputs present (fields non-empty, file parts valid) and a
price string casting to any integer `p` — negative included — the request
is answered 201 and a Course with price exactly `p` is appended to the
store. -/
theorem publish_price_unchecked (t1 t2 : Nat) (proto host cn d pr : String)
    (pv fv : FilePart) (store : List Course) (p : Int)
    (hcn : cn ≠ "") (hd : d ≠ "") (hpr : pr ≠ "")
    (hpv : fileFilterAccepts pv = true) (hpvs : pv.size ≤ fileSizeLimit)
    (hfv : fileFilterAccepts fv = true) (hfvs : fv.size ≤ fileSizeLimit)
    (hcast : castNumber pr = some p) :
    (publishCourse t1 t2 ⟨proto, host, some cn, some d, some pr, some pv, some fv⟩
        store).outcome
      = PublishOutcome.created ⟨cn, d, p,
          proto ++ "://" ++ host ++ "/uploads/" ++ (toString t1 ++ "-" ++ pv.originalname),
          proto ++ "://" ++ host ++ "/uploads/" ++ (toString t2 ++ "-" ++ fv.originalname)⟩ ∧
    (publishCourse t1 t2 ⟨proto, host, some cn, some d, some pr, some pv, some fv⟩
        store).store
      = store ++ [⟨cn, d, p,
          proto ++ "://" ++ host ++ "/uploads/" ++ (toString t1 ++ "-" ++ pv.originalname),
          proto ++ "://" ++ host ++ "/uploads/" ++ (toString t2 ++ "-" ++ fv.originalname)⟩] ∧
    publishStatus
      (publishCourse t1 t2 ⟨proto, host, some cn, some d, some pr, some pv, some fv⟩
        store).outcome = 201 := by
  have h1 := ingestFilePart_ok t1 pv hpv hpvs
  have h2 := ingestFilePart_ok t2 fv hfv hfvs
  have hif : (cn == "" || d == "" || pr == "") = false := by
    simp [hcn, hd, hpr]
  refine ⟨?_, ?_, ?_⟩ <;>
    simp [publishCourse, processFiles, h1, h2, Except.map, hif, hcast, publishStatus]

/-- C8 witness: the amended statement at price string `"-7"`. -/
theorem publish_price_unchecked_witness :
    (publishCourse 7 8 ⟨"https", "shop", some "Neg", some "Desc", some "-7",
        some ⟨"x.mp4", "video/mp4", 1⟩, some ⟨"y.mp4", "video/mp4", 2⟩⟩ []).outcome
      = PublishOutcome.created ⟨"Neg", "Desc", -7,
          "https" ++ "://" ++ "shop" ++ "/uploads/"
            ++ (toString 7 ++ "-" ++ FilePart.originalname ⟨"x.mp4", "video/mp4", 1⟩),
          "https" ++ "://" ++ "shop" ++ "/uploads/"
            ++ (toString 8 ++ "-" ++ FilePart.originalname ⟨"y.mp4", "video/mp4", 2⟩)⟩ ∧
    (publishCourse 7 8 ⟨"https", "shop", some "Neg", some "Desc", some "-7",
        some ⟨"x.mp4", "video/mp4", 1⟩, some ⟨"y.mp4", "video/mp4", 2⟩⟩ []).store
      = [] ++ [⟨"Neg", "Desc", -7,
          "https" ++ "://" ++ "shop" ++ "/uploads/"
            ++ (toString 7 ++ "-" ++ FilePart.originalname ⟨"x.mp4", "video/mp4", 1⟩),
          "https" ++ "://" ++ "shop" ++ "/uploads/"
            ++ (toString 8 ++ "-" ++ FilePart.originalname ⟨"y.mp4", "video/mp4", 2⟩)⟩] ∧
    publishStatus (publishCourse 7 8 ⟨"https", "shop", some "Neg", some "Desc", some "-7",
        some ⟨"x.mp4", "video/mp4", 1⟩, some ⟨"y.mp4", "video/mp4", 2⟩⟩ []).outcome = 201 :=
  publish_price_unchecked 7 8 "https" "shop" "Neg" "Desc" "-7"
    ⟨"x.mp4", "video/mp4", 1⟩ ⟨"y.mp4", "video/mp4", 2⟩ [] (-7)
    (by decide) (by decide) (by decide) (by decide) (by decide)
    (by decide) (by decide) (by decide)

/-- C9: a publish request carrying two valid file parts but rejected with
the 400 missing-fields error because a form field is falsy (absent or
empty) still ends with both files in the upload directory: the middleware
wrote them before the handler's check ran, and the rejection branch deletes
nothing; the course store is unchanged. -/
theorem publish_files_survive_reject (t1 t2 : Nat) (proto host : String)
    (cn? d? pr? : Option String) (pv fv : FilePart) (store : List Course)
    (hpv : fileFilterAccepts pv = true) (hpvs : pv.size ≤ fileSizeLimit)
    (hfv : fileFilterAccepts fv = true) (hfvs : fv.size ≤ fileSizeLimit)
    (hmiss : jsFalsy cn? = true ∨ jsFalsy d? = true ∨ jsFalsy pr? = true) :
    (publishCourse t1 t2 ⟨proto, host, cn?, d?, pr?, some pv, some fv⟩ store).outcome
      = PublishOutcome.missingFields ∧
    publishStatus
      (publishCourse t1 t2 ⟨proto, host, cn?, d?, pr?, some pv, some fv⟩ store).outcome
      = 400 ∧
    (publishCourse t1 t2 ⟨proto, host, cn?, d?, pr?, some pv, some fv⟩ store).uploadDir
      = [⟨toString t1 ++ "-" ++ pv.originalname⟩, ⟨toString t2 ++ "-" ++ fv.originalname⟩] ∧
    (publishCourse t1 t2 ⟨proto, host, cn?, d?, pr?, some pv, some fv⟩ store).uploadDir
      ≠ [] ∧
    (publishCourse t1 t2 ⟨proto, host, cn?, d?, pr?, some pv, some fv⟩ store).store
      = store := by
  have h1 := ingestFilePart_ok t1 pv hpv hpvs
  have h2 := ingestFilePart_ok t2 fv hfv hfvs
  rcases hmiss with h | h | h
  · rcases jsFalsy_shape cn? h with rfl | rfl <;> cases d? <;> cases pr? <;>
      refine ⟨?_, ?_, ?_, ?_, ?_⟩ <;>
      simp [publishCourse, processFiles, h1, h2, Except.map, publishStatus]
  · rcases jsFalsy_shape d? h with rfl | rfl <;> cases cn? <;> cases pr? <;>
      refine ⟨?_, ?_, ?_, ?_, ?_⟩ <;>
      simp [publishCourse, processFiles, h1, h2, Except.map, publishStatus]
  · rcases jsFalsy_shape pr? h with rfl | rfl <;> cases cn? <;> cases d? <;>
      refine ⟨?_, ?_, ?_, ?_, ?_⟩ <;>
      simp [publishCourse, processFiles, h1, h2, Except.map, publishStatus]

/-- C9 witness: a request with an empty `courseName`, valid files: the 400
missing-fields response, with both uploaded files still on disk. -/
theorem publish_files_survive_reject_witness :
    (publishCourse 11 12 ⟨"http", "edu", some "", some "Basics", some "9",
        some ⟨"p.mp4", "video/mp4", 30⟩, some ⟨"q.mp4", "video/mp4", 40⟩⟩ []).outcome
      = PublishOutcome.missingFields ∧
    publishStatus (publishCourse 11 12 ⟨"http", "edu", some "", some "Basics", some "9",
        some ⟨"p.mp4", "video/mp4", 30⟩, some ⟨"q.mp4", "video/mp4", 40⟩⟩ []).outcome
      = 400 ∧
    (publishCourse 11 12 ⟨"http", "edu", some "", some "Basics", some "9",
        some ⟨"p.mp4", "video/mp4", 30⟩, some ⟨"q.mp4", "video/mp4", 40⟩⟩ []).uploadDir
      = [⟨toString 11 ++ "-" ++ FilePart.originalname ⟨"p.mp4", "video/mp4", 30⟩⟩,
         ⟨toString 12 ++ "-" ++ FilePart.originalname ⟨"q.mp4", "video/mp4", 40⟩⟩] ∧
    (publishCourse 11 12 ⟨"http", "edu", some "", some "Basics", some "9",
        some ⟨"p.mp4", "video/mp4", 30⟩, some ⟨"q.mp4", "video/mp4", 40⟩⟩ []).uploadDir
      ≠ [] ∧
    (publishCourse 11 12 ⟨"http", "edu", some "", some "Basics", some "9",
        some ⟨"p.mp4", "video/mp4", 30⟩, some ⟨"q.mp4", "video/mp4", 40⟩⟩ []).store
      = [] :=
  publish_files_survive_reject 11 12 "http" "edu" (some "") (some "Basics") (some "9")
    ⟨"p.mp4", "video/mp4", 30⟩ ⟨"q.mp4", "video/mp4", 40⟩ []
    (by decide) (by decide) (by decide) (by decide) (Or.inl (by decide))

end Server
